import Mathlib

/-!
Shallow embedding of the Cloudlab-Workflow core (files `powder/experiment.py`
and `powder/ssh.py`) used to check the natural-language specification of the
repository.  Pure string manipulation from the Python code is modelled over
`List Char` so that every definition evaluates inside the kernel; statuses,
RPC result codes and manifest documents are modelled as inductive types; the
side-effecting RPC and pexpect interactions are modelled by passing the
environment's responses in explicitly.
-/

set_option maxRecDepth 4096

/-- Character-list membership of a prefix: `chStarts s p` is `str.startswith`
of Python, with the string `s` and the pattern `p` as character lists. -/
def chStarts : List Char → List Char → Bool
  | _, [] => true
  | [], _ :: _ => false
  | a :: as, b :: bs => a = b && chStarts as bs

/-- Substring test (Python's `pat in s`), over character lists. -/
def chContains : List Char → List Char → Bool
  | [], pat => chStarts [] pat
  | s@(_ :: rest), pat => chStarts s pat || chContains rest pat

/-- Python's `str.strip()`: drop leading and trailing whitespace. -/
def chTrim (s : List Char) : List Char :=
  ((s.dropWhile Char.isWhitespace).reverse.dropWhile Char.isWhitespace).reverse

/-- `s.startswith pat` on `String`s. -/
def strStarts (s pat : String) : Bool := chStarts s.data pat.data

/-- `pat in s` on `String`s. -/
def strContains (s pat : String) : Bool := chContains s.data pat.data

/-- Python truthiness of an optional string: `None` and `""` are falsy. -/
def truthyStr : Option String → Bool
  | none => false
  | some s => !(s == "")

/-- Experiment lifecycle states of `PowderExperiment`
(`EXPERIMENT_NOT_STARTED` … `EXPERIMENT_UNKNOWN` in `powder/experiment.py`). -/
inductive ExperimentStatus
  | NOT_STARTED
  | PROVISIONING
  | PROVISIONED
  | READY
  | FAILED
  | NULL
  | UNKNOWN
deriving DecidableEq, Repr

/-- Modelled from the spec: result codes of the external control-plane client
(`powder.rpc`, whose source is not under `src/`).  The spec requires the codes
to distinguish at least success, bad-arguments and a generic error; a fourth
constructor stands for any other non-success code. -/
inductive RpcCode
  | RESPONSE_SUCCESS
  | RESPONSE_BADARGS
  | RESPONSE_ERROR
  | RESPONSE_OTHER
deriving DecidableEq, Repr

/-- Payload of a control-plane response: the `output` field of the response
dict, absent when the dict has no `output` key. -/
structure RpcResponse where
  output : Option String
deriving DecidableEq, Repr

/-- `response.get('output', '')` where `response` itself may be `None`/falsy. -/
def outputOf : Option RpcResponse → String
  | none => ""
  | some r => r.output.getD ""

/-- The `Node` value record of `powder/experiment.py`. -/
structure Node where
  client_id : String
  ip_address : String
  hostname : String
deriving DecidableEq, Repr

/-- One `host` element of a manifest node entry, as produced by `xmltodict`:
the `@name` and `@ipv4` attributes, plus a flag recording whether the dict
carries any further keys (which only matters for Python dict truthiness). -/
structure HostEntry where
  name : Option String
  ipv4 : Option String
  extra : Bool
deriving DecidableEq, Repr

/-- Python truthiness of a host dict: it is non-empty. -/
def HostEntry.truthy (h : HostEntry) : Bool := h.name.isSome || h.ipv4.isSome || h.extra

/-- The `host` field of a node entry: absent, present but neither dict nor
list, a single dict, or a list whose elements may or may not be dicts
(`none` stands for a non-dict list element). -/
inductive HostField
  | absent
  | otherVal
  | one (h : HostEntry)
  | many (hs : List (Option HostEntry))
deriving DecidableEq, Repr

/-- One entry of the `node` collection: either not a dict (with its Python
truthiness recorded), or a dict with the `@client_id` attribute, the `host`
field, and a flag for any further keys. -/
inductive NodeEntry
  | nonDict (truthy : Bool)
  | dict (client_id : Option String) (host : HostField) (extra : Bool)
deriving DecidableEq, Repr

/-- Python truthiness of a node entry. -/
def NodeEntry.truthy : NodeEntry → Bool
  | .nonDict b => b
  | .dict cid host extra => cid.isSome || !(host == HostField.absent) || extra

/-- The `node` field under `rspec`: a single entry or a list of entries. -/
inductive NodesData
  | one (e : NodeEntry)
  | many (es : List NodeEntry)
deriving DecidableEq, Repr

/-- Normalisation `if not isinstance(nodes_data, list): nodes_data = [nodes_data]`. -/
def NodesData.toList : NodesData → List NodeEntry
  | .one e => [e]
  | .many es => es

/-- Python truthiness of the `node` field value. -/
def NodesData.truthy : NodesData → Bool
  | .one e => e.truthy
  | .many es => !es.isEmpty

/-- The `rspec` top-level element of a parsed manifest. -/
structure Rspec where
  node : Option NodesData
deriving DecidableEq, Repr

/-- One parsed manifest document (`xmltodict.parse` result); `rspec := none`
covers both a missing and a falsy `rspec` key. -/
structure Manifest where
  rspec : Option Rspec
deriving DecidableEq, Repr

/-- Local state of a `PowderExperiment` instance: `self.status`, `self.nodes`
(a dict modelled as an association list keyed by client id) and
`self._manifests`. -/
structure PowderExperiment where
  status : ExperimentStatus
  nodes : List (String × Node)
  manifests : Option (List Manifest)
deriving DecidableEq, Repr

/-- The state right after `__init__`. -/
def initExperiment : PowderExperiment :=
  { status := .NOT_STARTED, nodes := [], manifests := none }

/-- Python dict insertion `self.nodes[client_id] = node`: replace in place if
the key exists, append otherwise. -/
def insertNode : List (String × Node) → String → Node → List (String × Node)
  | [], c, n => [(c, n)]
  | (c', n') :: rest, c, n =>
      if c' = c then (c, n) :: rest else (c', n') :: insertNode rest c n

/-- Key-membership in the registry. -/
def hasKey (reg : List (String × Node)) (c : String) : Bool :=
  reg.any fun p => p.1 == c

/-- Selection of the host dict from the `host` field, as in
`_parse_manifests`: a dict is used as-is; in a list, the first dict with a
truthy `@ipv4` attribute is used; anything else yields no host dict. -/
def selectHost : HostField → Option HostEntry
  | .absent => none
  | .otherVal => none
  | .one h => some h
  | .many hs => hs.foldr (fun o acc =>
      match o with
      | some h => if truthyStr h.ipv4 then some h else acc
      | none => acc) none

/-- The per-entry extraction of `_parse_manifests`: skip non-dicts, skip
entries with a falsy `@client_id`, a falsy host dict, or a falsy `@name` or
`@ipv4`; otherwise produce the keyed `Node`. -/
def nodeFromEntry : NodeEntry → Option (String × Node)
  | .nonDict _ => none
  | .dict cid host _ =>
      if truthyStr cid then
        match selectHost host with
        | none => none
        | some h =>
            if h.truthy then
              if truthyStr h.name && truthyStr h.ipv4 then
                some (cid.getD "",
                  { client_id := cid.getD ""
                    ip_address := (h.ipv4).getD ""
                    hostname := (h.name).getD "" })
              else none
            else none
      else none

/-- The node entries one manifest contributes to the parsing loop:
nothing when `rspec` or `node` is missing or falsy, the normalised entry
list otherwise. -/
def manifestEntries (m : Manifest) : List NodeEntry :=
  match m.rspec with
  | none => []
  | some r =>
      match r.node with
      | none => []
      | some nd => if nd.truthy then nd.toList else []

/-- Processing of one node entry against the registry being built. -/
def addEntry (reg : List (String × Node)) (e : NodeEntry) : List (String × Node) :=
  match nodeFromEntry e with
  | some (c, n) => insertNode reg c n
  | none => reg

/-- The registry produced by the two nested loops of `_parse_manifests`,
starting from the freshly reset `self.nodes = {}`. -/
def parseRegistry (ms : List Manifest) : List (String × Node) :=
  ms.foldl (fun reg m => (manifestEntries m).foldl addEntry reg) []

/-- `_parse_manifests`: skipped entirely when `self._manifests` is `None` or
an empty list; otherwise the registry is reset and rebuilt. -/
def parse_manifests (e : PowderExperiment) : PowderExperiment :=
  match e.manifests with
  | none => e
  | some ms => if ms.isEmpty then e else { e with nodes := parseRegistry ms }

/-- `_get_manifests`: the environment's answer to the manifest fetch is
stored in `self._manifests` (`none` covers an RPC failure as well as a JSON
or XML decoding error, all of which set `self._manifests = None`). -/
def get_manifests (e : PowderExperiment) (fetched : Option (List Manifest)) : PowderExperiment :=
  { e with manifests := fetched }

/-- One control-plane answer to a status query, together with the answer the
environment would give to the manifest fetch that `_get_status` performs when
the experiment turns out ready. -/
structure StatusQuery where
  rval : RpcCode
  response : Option RpcResponse
  manifests : Option (List Manifest)
deriving Repr

/-- The not-found test of `_get_status`: a bad-arguments code, or a generic
error whose truthy response payload mentions `No such experiment`. -/
def isNotFound (q : StatusQuery) : Prop :=
  q.rval = .RESPONSE_BADARGS ∨
    (q.rval = .RESPONSE_ERROR ∧ q.response.isSome ∧
      strContains (outputOf q.response) "No such experiment" = true)

instance (q : StatusQuery) : Decidable (isNotFound q) := by
  unfold isNotFound
  infer_instance

/-- The success-payload classification of `_get_status`, applied to the
stripped `output` field: the four fixed `Status:` prefixes, then the
provisioning-suggestive markers, then `UNKNOWN`. -/
def classifyOutput (out : List Char) : ExperimentStatus :=
  if chStarts out "Status: ready".data then .READY
  else if chStarts out "Status: provisioning".data then .PROVISIONING
  else if chStarts out "Status: provisioned".data then .PROVISIONED
  else if chStarts out "Status: failed".data then .FAILED
  else if chContains out "UUID:".data || chContains out "creating image".data ||
          chContains out "booting".data then .PROVISIONING
  else .UNKNOWN

/-- `_get_status`: classify the control-plane answer and update the local
state; on a ready classification with a fresh transition or an empty
registry, fetch and parse manifests, downgrading to `FAILED` when the
registry stays empty. -/
def get_status (e : PowderExperiment) (q : StatusQuery) : PowderExperiment :=
  if isNotFound q then
    if e.status ≠ .NULL then { status := .NULL, nodes := [], manifests := none } else e
  else if q.rval ≠ .RESPONSE_SUCCESS then
    { e with status := .UNKNOWN }
  else
    let out := chTrim (outputOf q.response).data
    if chStarts out "Status: ready".data then
      if e.status ≠ .READY ∨ e.nodes = [] then
        let e1 := parse_manifests (get_manifests e q.manifests)
        if e1.nodes = [] then { e1 with status := .FAILED }
        else { e1 with status := .READY }
      else { e with status := .READY }
    else { e with status := classifyOutput out }

/-- `terminate`: on control-plane success the state becomes `NULL` with the
registry and manifest cache cleared; otherwise the local state is untouched.
The value the Python method returns is the `status` field of the result. -/
def terminate (e : PowderExperiment) (rval : RpcCode) : PowderExperiment :=
  if rval = .RESPONSE_SUCCESS then
    { status := .NULL, nodes := [], manifests := none }
  else e

/-- `POLL_INTERVAL_S` of `powder/experiment.py`. -/
def POLL_INTERVAL_S : Nat := 20

/-- `PROVISION_TIMEOUT_S` of `powder/experiment.py`. -/
def PROVISION_TIMEOUT_S : Nat := 1800

/-- `self._poll_count_max = PROVISION_TIMEOUT_S // POLL_INTERVAL_S`. -/
def poll_count_max : Nat := PROVISION_TIMEOUT_S / POLL_INTERVAL_S

/-- The intermediate states the polling loop of `start_and_wait` keeps
waiting in. -/
def pollStates : List ExperimentStatus :=
  [.PROVISIONING, .PROVISIONED, .NOT_STARTED, .UNKNOWN]

/-- The polling loop of `start_and_wait`: while the status is intermediate
and the poll count is below the maximum, refresh the status.  `fuel` is the
number of polls still allowed (`poll_count_max - poll_count`); the result
carries the next query index and the number of polls performed. -/
def pollLoop (qs : Nat → StatusQuery) :
    PowderExperiment → Nat → Nat → PowderExperiment × Nat × Nat
  | e, idx, 0 => (e, idx, 0)
  | e, idx, fuel + 1 =>
      if e.status ∈ pollStates then
        let r := pollLoop qs (get_status e (qs idx)) (idx + 1) fuel
        (r.1, r.2.1, r.2.2 + 1)
      else (e, idx, 0)

/-- Environment of one `start_and_wait` call: the answer to the `n`-th
status query issued during the call, the result code of the start request,
the result code of the terminate request (issued only from a `FAILED`
initial state), and the answer to the direct manifest fetch that the
ready-with-empty-registry paths perform. -/
structure SWEnv where
  queries : Nat → StatusQuery
  startRval : RpcCode
  terminateRval : RpcCode
  finalManifests : Option (List Manifest)

/-- The final-evaluation block of `start_and_wait` (also the shape of its
already-`READY` early return): a ready state with an empty registry gets one
manifest re-fetch and is downgraded to `FAILED` if the registry stays empty;
`FAILED` is returned as is; any other state is a timeout, forced to `FAILED`
unless it is `NULL`. -/
def finalEval (e : PowderExperiment) (fetched : Option (List Manifest)) : PowderExperiment :=
  if e.status = .READY then
    if e.nodes = [] then
      let e1 := parse_manifests (get_manifests e fetched)
      if e1.nodes = [] then { e1 with status := .FAILED } else e1
    else e
  else if e.status = .FAILED then e
  else if e.status ≠ .FAILED ∧ e.status ≠ .NULL then { e with status := .FAILED }
  else e

/-- `start_and_wait`: initial status check, early return when already ready,
best-effort terminate from `FAILED`, conditional start request, the bounded
polling loop, and the final evaluation.  The second component is the number
of polling-loop iterations performed. -/
def start_and_wait (e0 : PowderExperiment) (env : SWEnv) : PowderExperiment × Nat :=
  let e1 := get_status e0 (env.queries 0)
  if e1.status = .READY then
    (finalEval e1 env.finalManifests, 0)
  else
    let e2 := if e1.status = .FAILED then terminate e1 env.terminateRval else e1
    if e2.status = .PROVISIONING ∨ e2.status = .PROVISIONED then
      let r := pollLoop env.queries e2 1 poll_count_max
      (finalEval r.1 env.finalManifests, r.2.2)
    else
      if env.startRval ≠ .RESPONSE_SUCCESS then ({ e2 with status := .FAILED }, 0)
      else
        let e3 := get_status e2 (env.queries 1)
        if e3.status = .FAILED then (e3, 0)
        else
          let r := pollLoop env.queries e3 2 poll_count_max
          (finalEval r.1 env.finalManifests, r.2.2)

/-- Construction-time environment of `SSHConnection.__init__`: the explicit
`username` argument, the `USER`, `KEYPWORD` and `CERT` environment variables,
and the file-existence oracle for `os.path.exists`. -/
structure SSHEnv where
  userArg : Option String
  userEnvVar : Option String
  keypword : Option String
  cert : Option String
  fileExists : String → Bool

/-- The errors `SSHConnection.__init__` can raise: the missing-username
`ValueError`, the missing-`CERT` `ValueError`, and the
`FileNotFoundError` for a `CERT` path that does not exist. -/
inductive SSHInitError
  | usernameMissing
  | certUnset
  | certFileMissing
deriving DecidableEq, Repr

/-- The fields a constructed `SSHConnection` holds; `hasHandle` models
`self.ssh`, which `__init__` always leaves as `None` (no process spawned). -/
structure SSHConnectionState where
  username : String
  password : Option String
  cert_path : String
  hasHandle : Bool
deriving Repr

/-- `SSHConnection.__init__`: resolve the username (explicit argument if
truthy, else the `USER` variable, else fail), read the optional passphrase,
then require a truthy `CERT` value naming an existing file. -/
def sshInit (env : SSHEnv) : Except SSHInitError SSHConnectionState :=
  let uname : Option String :=
    if truthyStr env.userArg then env.userArg else env.userEnvVar
  match uname with
  | none => .error .usernameMissing
  | some u =>
      match env.cert with
      | none => .error .certUnset
      | some c =>
          if c = "" then .error .certUnset
          else if env.fileExists c then
            .ok { username := u, password := env.keypword, cert_path := c, hasHandle := false }
          else .error .certFileMissing

/-- What one connection attempt of `SSHConnection.open` observes on the
pexpect stream: the index the outer `expect` resolves to, the nested outcome
after answering a host-key confirmation, and for a passphrase prompt whether
the follow-up `expect` saw the shell prompt (`ok = true`) or a permission
denial.  An attempt in which any pexpect call raised is `pexpectErr`. -/
inductive ExpectOutcome
  | prompt
  | passwordPrompt
  | passphrase (ok : Bool)
  | denied
  | hostkey (inner : ExpectOutcome)
  | eofEv
  | timeoutEv
  | pexpectErr
deriving DecidableEq, Repr

/-- How one attempt of `open` resolves: an established session, a raised
`ValueError`, a raised `ConnectionRefusedError`, or a transient failure that
falls through to the retry logic. -/
inductive AttemptResult
  | connected
  | valueErr (msg : String)
  | refusedErr (msg : String)
  | transient
deriving DecidableEq, Repr

/-- Resolution of one connection attempt of `SSHConnection.open`, as a
function of whether a key passphrase is configured (`self.password` truthy)
and of the observed stream outcome. -/
def attemptResult (hasPwd : Bool) : ExpectOutcome → AttemptResult
  | .prompt => .connected
  | .passwordPrompt => .valueErr "SSH requested user password, unexpected for key authentication."
  | .passphrase ok =>
      if hasPwd then
        if ok then .connected
        else .valueErr "Incorrect SSH key passphrase or other permission issue."
      else .valueErr "Encrypted SSH key requires KEYPWORD environment variable."
  | .denied => .refusedErr "SSH Permission Denied (publickey)"
  | .hostkey inner =>
      match inner with
      | .prompt => .connected
      | .passwordPrompt => .valueErr "SSH requested user password after host key confirmation."
      | .passphrase ok =>
          if hasPwd then
            if ok then .connected
            else .valueErr "Passphrase authentication failed after host key confirmation."
          else .valueErr "Encrypted key requires KEYPWORD after host key confirmation."
      | .denied => .refusedErr "Permission denied after host key confirmation."
      | _ => .transient
  | .eofEv => .transient
  | .timeoutEv => .transient
  | .pexpectErr => .transient

/-- Number of `close(force=True)` calls the attempt performs (1 on every
branch of `open` that closes the handle, 0 on the branches that return or
raise without closing). -/
def attemptCloses (hasPwd : Bool) : ExpectOutcome → Nat
  | .prompt => 0
  | .passwordPrompt => 1
  | .passphrase ok => if hasPwd then (if ok then 0 else 1) else 1
  | .denied => 1
  | .hostkey inner =>
      match inner with
      | .prompt => 0
      | .passwordPrompt => 0
      | .passphrase _ => 0
      | .denied => 0
      | _ => 1
  | .eofEv => 1
  | .timeoutEv => 1
  | .pexpectErr => 1

/-- How a whole `open` call ends. -/
inductive OpenFinal
  | ok
  | valueError (msg : String)
  | refusedError (msg : String)
  | connectionError (msg : String)
deriving DecidableEq, Repr

/-- Observable trace of one `open` call: its final resolution, the number of
connection attempts made, the backoff sleeps performed (in order, seconds),
and the number of forced closes of the process handle. -/
structure OpenTrace where
  final : OpenFinal
  attempts : Nat
  sleeps : List Nat
  closes : Nat
deriving DecidableEq, Repr

/-- Message of the `ConnectionError` raised when the retries are exhausted. -/
def connErrMsg (ip : String) : String :=
  "Could not connect via SSH to " ++ ip ++ " after multiple retries"

/-- The retry loop of `SSHConnection.open`.  `i` is `retry_count` (also the
index of the next attempt's stream outcome in `os`), `fuel` is
`max_retries - retry_count`; after a transient failure the backoff
`2 ^ retry_count` seconds is slept whenever `retry_count < max_retries`. -/
def openAux (hasPwd : Bool) (ip : String) (os : Nat → ExpectOutcome) :
    Nat → Nat → List Nat → Nat → OpenTrace
  | i, 0, sleeps, closes =>
      { final := .connectionError (connErrMsg ip), attempts := i, sleeps := sleeps, closes := closes }
  | i, fuel + 1, sleeps, closes =>
      let closes1 := closes + attemptCloses hasPwd (os i)
      match attemptResult hasPwd (os i) with
      | .connected => { final := .ok, attempts := i + 1, sleeps := sleeps, closes := closes1 }
      | .valueErr m => { final := .valueError m, attempts := i + 1, sleeps := sleeps, closes := closes1 }
      | .refusedErr m => { final := .refusedError m, attempts := i + 1, sleeps := sleeps, closes := closes1 }
      | .transient =>
          if i + 1 < 4 then openAux hasPwd ip os (i + 1) fuel (sleeps ++ [2 ^ (i + 1)]) closes1
          else openAux hasPwd ip os (i + 1) fuel sleeps closes1

/-- `SSHConnection.open` with `max_retries = 4`. -/
def sshOpen (hasPwd : Bool) (ip : String) (os : Nat → ExpectOutcome) : OpenTrace :=
  openAux hasPwd ip os 0 4 [] 0

/-- The stream outcomes that `open` turns into an immediately fatal
authentication failure outside the passphrase-sending context: a
permission-denied match or an unexpected interactive password prompt,
directly or right after a host-key confirmation. -/
def authFatalOutcome : ExpectOutcome → Bool
  | .passwordPrompt => true
  | .denied => true
  | .hostkey .passwordPrompt => true
  | .hostkey .denied => true
  | _ => false

/-- An `open` resolution that is a raised fatal error (never retried). -/
def fatalFinal : OpenFinal → Bool
  | .valueError _ => true
  | .refusedError _ => true
  | _ => false

/-- Written from the spec's words (§4.3): the key an entry contributes, which
is present exactly when the entry is a dict carrying a (truthy) client
identifier and resolving to a host descriptor with both a hostname and an
IPv4 address.  Used to compare the code's extraction against the spec. -/
def specNodeKey : NodeEntry → Option String
  | .nonDict _ => none
  | .dict cid host _ =>
      match cid, selectHost host with
      | some c, some h =>
          if c ≠ "" ∧ truthyStr h.name = true ∧ truthyStr h.ipv4 = true then some c
          else none
      | _, _ => none

/-- A well-formed manifest host element. -/
def goodHost : HostEntry :=
  { name := some "node0.emulab.net", ipv4 := some "128.110.96.5", extra := false }

/-- The node the well-formed entry parses to. -/
def goodNode : Node :=
  { client_id := "node-0", ip_address := "128.110.96.5", hostname := "node0.emulab.net" }

/-- A well-formed manifest node entry. -/
def goodEntry : NodeEntry := .dict (some "node-0") (.one goodHost) false

/-- A malformed node entry: the `@client_id` attribute is missing. -/
def badEntry : NodeEntry := .dict none (.one goodHost) false

/-- A manifest with one malformed and one well-formed node entry. -/
def exampleManifest : Manifest :=
  { rspec := some { node := some (.many [badEntry, goodEntry]) } }

/-- A manifest whose only node entry is malformed: it yields zero nodes. -/
def badManifest : Manifest :=
  { rspec := some { node := some (.many [badEntry]) } }

/-- A successful status query answering `Status: ready` whose manifest fetch
yields the example manifest (one valid node). -/
def readyOkQuery : StatusQuery :=
  { rval := .RESPONSE_SUCCESS, response := some { output := some "Status: ready\n" },
    manifests := some [exampleManifest] }

/-- A successful status query answering `Status: provisioning`. -/
def provisioningQuery : StatusQuery :=
  { rval := .RESPONSE_SUCCESS, response := some { output := some "Status: provisioning" },
    manifests := none }

/-- A successful status query answering `Status: ready` whose manifest fetch
yields only a malformed entry, so parsing produces an empty registry. -/
def readyEmptyQuery : StatusQuery :=
  { rval := .RESPONSE_SUCCESS, response := some { output := some "Status: ready" },
    manifests := some [badManifest] }

/-- A bad-arguments status answer (the experiment does not exist). -/
def notFoundQuery : StatusQuery :=
  { rval := .RESPONSE_BADARGS, response := none, manifests := none }

/-- A non-success status answer that is not the not-found case. -/
def otherErrQuery : StatusQuery :=
  { rval := .RESPONSE_OTHER, response := some { output := some "server overloaded" },
    manifests := none }

/-- Environment of a `start_and_wait` run whose status sequence reaches
`ready` but whose manifests yield zero valid nodes: first poll answer is
`provisioning`, every later one is ready-with-empty-manifests. -/
def c3Env : SWEnv :=
  { queries := fun i => if i = 0 then provisioningQuery else readyEmptyQuery,
    startRval := .RESPONSE_SUCCESS, terminateRval := .RESPONSE_ERROR,
    finalManifests := none }

/-- State reached from `__init__` by two `_get_status` calls: one answering
ready (populating the registry), one answering provisioning. -/
def c7State : PowderExperiment :=
  get_status (get_status initExperiment readyOkQuery) provisioningQuery

/-- A ready experiment whose manifest cache is the empty list. -/
def c8Prior : PowderExperiment :=
  { status := .READY, nodes := [("node-0", goodNode)], manifests := some [] }

/-- The hypothesis of the key-material claim: `CERT` is unset, empty, or
names a file that does not exist. -/
def certBad (env : SSHEnv) : Prop :=
  match env.cert with
  | none => True
  | some c => c = "" ∨ env.fileExists c = false

/-- A construction environment with `CERT` unset. -/
def c9Env : SSHEnv :=
  { userArg := some "alice", userEnvVar := none, keypword := none, cert := none,
    fileExists := fun _ => false }

/-- A stream of connection attempts that all fail with end-of-stream. -/
def transientStream : Nat → ExpectOutcome := fun _ => .eofEv

/-- The `open` trace against the always-EOF stream. -/
def c4Trace : OpenTrace := sshOpen true "10.0.0.1" transientStream

/-- A stream with one transient failure followed by a permission denial. -/
def c5Stream : Nat → ExpectOutcome := fun n => if n = 0 then .timeoutEv else .denied

theorem chStarts_nil_pat (s : List Char) : chStarts s [] = true := by
  cases s <;> rfl

theorem chStarts_compat (s p q : List Char) (hp : chStarts s p = true)
    (hq : chStarts s q = true) : chStarts p q = true ∨ chStarts q p = true := by
  induction s generalizing p q with
  | nil =>
      cases p with
      | nil => exact Or.inr (chStarts_nil_pat q)
      | cons b bs => simp [chStarts] at hp
  | cons a as ih =>
      cases p with
      | nil => exact Or.inr (chStarts_nil_pat q)
      | cons b bs =>
          cases q with
          | nil => exact Or.inl (chStarts_nil_pat (b :: bs))
          | cons d ds =>
              simp only [chStarts, Bool.and_eq_true, decide_eq_true_eq] at hp hq
              rcases ih bs ds hp.2 hq.2 with h | h
              · exact Or.inl (by simp [chStarts, hp.1 ▸ hq.1, h])
              · exact Or.inr (by simp [chStarts, hq.1 ▸ hp.1, h])

theorem chStarts_excl (out p1 p2 : List Char) (h1 : chStarts out p1 = true)
    (hc : chStarts p1 p2 = false) (hc' : chStarts p2 p1 = false) :
    chStarts out p2 = false := by
  by_contra h
  rw [Bool.not_eq_false] at h
  rcases chStarts_compat out p1 p2 h1 h with hcase | hcase
  · rw [hc] at hcase; exact Bool.false_ne_true hcase
  · rw [hc'] at hcase; exact Bool.false_ne_true hcase

theorem classify_ready (out : List Char)
    (h : chStarts out "Status: ready".data = true) : classifyOutput out = .READY := by
  simp [classifyOutput, h]

theorem classify_provisioning (out : List Char)
    (h : chStarts out "Status: provisioning".data = true) :
    classifyOutput out = .PROVISIONING := by
  have hr : chStarts out "Status: ready".data = false :=
    chStarts_excl out _ _ h (by decide) (by decide)
  simp [classifyOutput, h, hr]

theorem classify_provisioned (out : List Char)
    (h : chStarts out "Status: provisioned".data = true) :
    classifyOutput out = .PROVISIONED := by
  have hr : chStarts out "Status: ready".data = false :=
    chStarts_excl out _ _ h (by decide) (by decide)
  have hg : chStarts out "Status: provisioning".data = false :=
    chStarts_excl out _ _ h (by decide) (by decide)
  simp [classifyOutput, h, hr, hg]

theorem classify_failed (out : List Char)
    (h : chStarts out "Status: failed".data = true) : classifyOutput out = .FAILED := by
  have hr : chStarts out "Status: ready".data = false :=
    chStarts_excl out _ _ h (by decide) (by decide)
  have hg : chStarts out "Status: provisioning".data = false :=
    chStarts_excl out _ _ h (by decide) (by decide)
  have hd : chStarts out "Status: provisioned".data = false :=
    chStarts_excl out _ _ h (by decide) (by decide)
  simp [classifyOutput, h, hr, hg, hd]

theorem not_ready_of_classify (out : List Char)
    (h : classifyOutput out ≠ .READY) : chStarts out "Status: ready".data = false := by
  by_contra hc
  rw [Bool.not_eq_false] at hc
  exact h (classify_ready out hc)

theorem pollLoop_count_le (qs : Nat → StatusQuery) :
    ∀ (fuel : Nat) (e : PowderExperiment) (idx : Nat),
      (pollLoop qs e idx fuel).2.2 ≤ fuel := by
  intro fuel
  induction fuel with
  | zero => intro e idx; simp [pollLoop]
  | succ f ih =>
      intro e idx
      simp only [pollLoop]
      split
      · exact Nat.succ_le_succ (ih _ _)
      · exact Nat.zero_le _

theorem hasKey_insertNode (reg : List (String × Node)) (c : String) (n : Node)
    (c' : String) : hasKey (insertNode reg c n) c' = ((c == c') || hasKey reg c') := by
  induction reg with
  | nil => simp [insertNode, hasKey]
  | cons p rest ih =>
      obtain ⟨a, b⟩ := p
      by_cases hac : a = c
      · subst hac
        simp [insertNode, hasKey]
      · simp only [insertNode, if_neg hac, hasKey, List.any_cons] at ih ⊢
        rw [ih]
        cases h1 : c == c' <;> cases h2 : a == c' <;> simp

theorem nodeFromEntry_key (en : NodeEntry) :
    (nodeFromEntry en).map Prod.fst = specNodeKey en := by
  cases en with
  | nonDict b => rfl
  | dict cid host extra =>
      cases cid with
      | none => rfl
      | some c =>
          cases h : selectHost host with
          | none =>
              by_cases hc : c = "" <;>
                simp [nodeFromEntry, specNodeKey, h, truthyStr, hc]
          | some hd =>
              by_cases hc : c = ""
              · simp [nodeFromEntry, specNodeKey, h, truthyStr, hc]
              · obtain ⟨nm, ip, ex⟩ := hd
                cases nm with
                | none =>
                    simp [nodeFromEntry, specNodeKey, h, truthyStr, hc, HostEntry.truthy]
                | some v =>
                    cases ip with
                    | none =>
                        simp [nodeFromEntry, specNodeKey, h, truthyStr, hc, HostEntry.truthy]
                    | some w =>
                        by_cases hv : v = "" <;> by_cases hw : w = "" <;>
                          simp [nodeFromEntry, specNodeKey, h, truthyStr, hc, hv, hw,
                            HostEntry.truthy]

theorem hasKey_foldl_addEntry (l : List NodeEntry) :
    ∀ (reg : List (String × Node)) (c : String),
      hasKey (l.foldl addEntry reg) c =
        (hasKey reg c || l.any fun en => specNodeKey en == some c) := by
  induction l with
  | nil => intro reg c; simp
  | cons en rest ih =>
      intro reg c
      simp only [List.foldl_cons, List.any_cons]
      rw [ih]
      have hstep : hasKey (addEntry reg en) c =
          (hasKey reg c || (specNodeKey en == some c)) := by
        unfold addEntry
        have hkey := nodeFromEntry_key en
        cases hfe : nodeFromEntry en with
        | none =>
            rw [hfe] at hkey
            simp only [Option.map_none'] at hkey
            rw [← hkey]
            simp
        | some p =>
            obtain ⟨ck, nd⟩ := p
            rw [hfe] at hkey
            simp only [Option.map_some'] at hkey
            rw [← hkey, hasKey_insertNode]
            have hoo : (some ck == some c) = (ck == c) := by
              by_cases hq : ck = c <;> simp [hq]
            rw [hoo, Bool.or_comm]
      rw [hstep, Bool.or_assoc]

theorem parseRegistry_eq_flatMap (ms : List Manifest) :
    parseRegistry ms = (ms.flatMap manifestEntries).foldl addEntry [] := by
  suffices h : ∀ (ms : List Manifest) (reg : List (String × Node)),
      ms.foldl (fun reg m => (manifestEntries m).foldl addEntry reg) reg =
        (ms.flatMap manifestEntries).foldl addEntry reg by
    exact h ms []
  intro ms
  induction ms with
  | nil => intro reg; simp
  | cons m rest ih =>
      intro reg
      simp only [List.foldl_cons, List.flatMap_cons, List.foldl_append]
      exact ih _

theorem closes_of_transient (hasPwd : Bool) (o : ExpectOutcome)
    (h : attemptResult hasPwd o = .transient) : attemptCloses hasPwd o = 1 := by
  cases o with
  | prompt => simp [attemptResult] at h
  | passwordPrompt => simp [attemptResult] at h
  | passphrase ok =>
      simp only [attemptResult] at h
      cases hasPwd <;> cases ok <;> simp_all [attemptCloses]
  | denied => simp [attemptResult] at h
  | hostkey inner =>
      cases inner with
      | prompt => simp [attemptResult] at h
      | passwordPrompt => simp [attemptResult] at h
      | passphrase ok =>
          simp only [attemptResult] at h
          cases hasPwd <;> cases ok <;> simp_all
      | denied => simp [attemptResult] at h
      | hostkey i2 => rfl
      | eofEv => rfl
      | timeoutEv => rfl
      | pexpectErr => rfl
  | eofEv => rfl
  | timeoutEv => rfl
  | pexpectErr => rfl

theorem authFatal_result (hasPwd : Bool) (o : ExpectOutcome)
    (h : authFatalOutcome o = true) :
    ∃ m, attemptResult hasPwd o = .valueErr m ∨ attemptResult hasPwd o = .refusedErr m := by
  cases o with
  | passwordPrompt =>
      exact ⟨_, Or.inl rfl⟩
  | denied => exact ⟨_, Or.inr rfl⟩
  | hostkey inner =>
      cases inner with
      | passwordPrompt => exact ⟨_, Or.inl rfl⟩
      | denied => exact ⟨_, Or.inr rfl⟩
      | prompt => simp [authFatalOutcome] at h
      | passphrase ok => simp [authFatalOutcome] at h
      | hostkey i2 => simp [authFatalOutcome] at h
      | eofEv => simp [authFatalOutcome] at h
      | timeoutEv => simp [authFatalOutcome] at h
      | pexpectErr => simp [authFatalOutcome] at h
  | prompt => simp [authFatalOutcome] at h
  | passphrase ok => simp [authFatalOutcome] at h
  | eofEv => simp [authFatalOutcome] at h
  | timeoutEv => simp [authFatalOutcome] at h
  | pexpectErr => simp [authFatalOutcome] at h

/-- C1: for any sequence of control-plane status responses, `start_and_wait`
performs at most `poll_count_max = 1800 / 20 = 90` polling iterations, and
its final evaluation forces every state that is neither `READY`, `FAILED`
nor `NULL` (a loop exhausted in `PROVISIONING`, `PROVISIONED`, `NOT_STARTED`
or `UNKNOWN`) to `FAILED`, while a `NULL` state is returned as-is. -/
theorem claim_C1 (e0 : PowderExperiment) (env : SWEnv) :
    poll_count_max = 90 ∧
    (start_and_wait e0 env).2 ≤ 90 ∧
    (∀ (e : PowderExperiment) (fm : Option (List Manifest)),
      e.status ≠ .READY → e.status ≠ .FAILED → e.status ≠ .NULL →
      (finalEval e fm).status = .FAILED) ∧
    (∀ (e : PowderExperiment) (fm : Option (List Manifest)),
      e.status = .NULL → (finalEval e fm).status = .NULL) := by
  refine ⟨rfl, ?_, ?_, ?_⟩
  · simp only [start_and_wait]
    repeat' split
    all_goals
      first
        | exact Nat.zero_le _
        | exact pollLoop_count_le env.queries poll_count_max _ _
  · intro e fm h1 h2 h3
    unfold finalEval
    rw [if_neg h1, if_neg h2, if_pos ⟨h2, h3⟩]
  · intro e fm h
    simp [finalEval, h]

/-- Witness for C1 at a concrete experiment, environment and timed-out
state. -/
theorem claim_C1_witness :
    (start_and_wait initExperiment c3Env).2 ≤ 90 ∧
    (finalEval { status := .PROVISIONING, nodes := [], manifests := none } none).status
      = .FAILED := by
  have h := claim_C1 initExperiment c3Env
  exact ⟨h.2.1, h.2.2.1 _ none (by decide) (by decide) (by decide)⟩

/-- C2: `_get_status` classifies a bad-arguments code or a
no-such-experiment error as `NULL` with registry and manifest cache cleared;
any other non-success code as `UNKNOWN`; and a success payload by its
stripped leading status text against the fixed prefixes, with the
provisioning-suggestive markers (`UUID:`, `creating image`, `booting`)
classified as `PROVISIONING` and anything else as `UNKNOWN`.  The hypothesis
records the `NULL`-state invariant (registry and cache already clear), which
holds in every reachable state. -/
theorem claim_C2 (e : PowderExperiment) (q : StatusQuery)
    (hInv : e.status = .NULL → e.nodes = [] ∧ e.manifests = none) :
    (isNotFound q →
      (get_status e q).status = .NULL ∧ (get_status e q).nodes = [] ∧
        (get_status e q).manifests = none) ∧
    (¬ isNotFound q → q.rval ≠ .RESPONSE_SUCCESS →
      (get_status e q).status = .UNKNOWN) ∧
    (q.rval = .RESPONSE_SUCCESS →
      chStarts (chTrim (outputOf q.response).data) "Status: ready".data = false →
      (get_status e q).status = classifyOutput (chTrim (outputOf q.response).data)) ∧
    (∀ out, chStarts out "Status: ready".data = true → classifyOutput out = .READY) ∧
    (∀ out, chStarts out "Status: provisioning".data = true →
      classifyOutput out = .PROVISIONING) ∧
    (∀ out, chStarts out "Status: provisioned".data = true →
      classifyOutput out = .PROVISIONED) ∧
    (∀ out, chStarts out "Status: failed".data = true → classifyOutput out = .FAILED) ∧
    (∀ out, chStarts out "Status: ready".data = false →
      chStarts out "Status: provisioning".data = false →
      chStarts out "Status: provisioned".data = false →
      chStarts out "Status: failed".data = false →
      classifyOutput out =
        (if (chContains out "UUID:".data || chContains out "creating image".data ||
             chContains out "booting".data) = true then .PROVISIONING else .UNKNOWN)) ∧
    classifyOutput "Status: provisioning, UUID: abc".data = .PROVISIONING := by
  refine ⟨?_, ?_, ?_, classify_ready, classify_provisioning, classify_provisioned,
    classify_failed, ?_, by decide⟩
  · intro hnf
    have hg : get_status e q =
        if e.status ≠ .NULL then { status := .NULL, nodes := [], manifests := none }
        else e := by
      unfold get_status
      rw [if_pos hnf]
    by_cases hnull : e.status = .NULL
    · rw [hg, if_neg (by simpa using hnull)]
      exact ⟨hnull, (hInv hnull).1, (hInv hnull).2⟩
    · rw [hg, if_pos hnull]
      exact ⟨rfl, rfl, rfl⟩
  · intro hnf hns
    unfold get_status
    rw [if_neg hnf, if_pos hns]
  · intro hs hnr
    have hnf : ¬ isNotFound q := by
      intro h
      rcases h with h | ⟨h, _⟩ <;> rw [hs] at h <;> exact RpcCode.noConfusion h
    simp only [get_status]
    rw [if_neg hnf,
      if_neg (by simp [hs] : ¬ q.rval ≠ RpcCode.RESPONSE_SUCCESS),
      if_neg (by simp [hnr] :
        ¬ (chStarts (chTrim (outputOf q.response).data) "Status: ready".data = true))]
  · intro out h1 h2 h3 h4
    simp [classifyOutput, h1, h2, h3, h4]

/-- Witness for C2: the bad-arguments answer on the initial state. -/
theorem claim_C2_witness :
    (get_status initExperiment notFoundQuery).status = .NULL ∧
    (get_status initExperiment notFoundQuery).nodes = [] ∧
    (get_status initExperiment notFoundQuery).manifests = none :=
  (claim_C2 initExperiment notFoundQuery (by decide)).1 (by decide)

/-- C3: a success answer classified ready, reaching the manifest-fetch
condition (fresh transition to ready or empty registry), ends in `FAILED`
whenever the fetched-and-parsed registry is still empty — both inside
`_get_status` and in the final evaluation of `start_and_wait`; and a
concrete run whose status sequence reaches `ready` with manifests yielding
zero valid nodes returns `FAILED`. -/
theorem claim_C3 (e : PowderExperiment) (q : StatusQuery) :
    (q.rval = .RESPONSE_SUCCESS →
      chStarts (chTrim (outputOf q.response).data) "Status: ready".data = true →
      (e.status ≠ .READY ∨ e.nodes = []) →
      (parse_manifests (get_manifests e q.manifests)).nodes = [] →
      (get_status e q).status = .FAILED) ∧
    (∀ (e1 : PowderExperiment) (fm : Option (List Manifest)),
      e1.status = .READY → e1.nodes = [] →
      (parse_manifests (get_manifests e1 fm)).nodes = [] →
      (finalEval e1 fm).status = .FAILED) ∧
    start_and_wait initExperiment c3Env =
      ({ status := .FAILED, nodes := [], manifests := some [badManifest] }, 1) := by
  refine ⟨?_, ?_, by decide⟩
  · intro hs hr hcond hparse
    have hnf : ¬ isNotFound q := by
      intro h
      rcases h with h | ⟨h, _⟩ <;> rw [hs] at h <;> exact RpcCode.noConfusion h
    simp only [get_status]
    rw [if_neg hnf,
      if_neg (by simp [hs] : ¬ q.rval ≠ RpcCode.RESPONSE_SUCCESS),
      if_pos hr, if_pos hcond, if_pos hparse]
  · intro e1 fm h1 h2 hp
    unfold finalEval
    rw [if_pos h1, if_pos h2, if_pos hp]

/-- Witness for C3: the ready-with-empty-manifests query on the initial
state. -/
theorem claim_C3_witness :
    (get_status initExperiment readyEmptyQuery).status = .FAILED :=
  (claim_C3 initExperiment readyEmptyQuery).1 (by decide) (by decide)
    (Or.inl (by decide)) (by decide)

/-- C6: `terminate` sets the state to `NULL` and clears registry and
manifest cache exactly when the control plane reports success; on any other
result the whole local state is untouched and the prior status is what the
method returns; in particular a non-`NULL` state never becomes `NULL`
through a failed termination. -/
theorem claim_C6 (e : PowderExperiment) (rv : RpcCode) :
    (rv = .RESPONSE_SUCCESS →
      terminate e rv = { status := .NULL, nodes := [], manifests := none }) ∧
    (rv ≠ .RESPONSE_SUCCESS →
      terminate e rv = e ∧ (terminate e rv).status = e.status) ∧
    (e.status ≠ .NULL → rv ≠ .RESPONSE_SUCCESS → (terminate e rv).status ≠ .NULL) := by
  refine ⟨?_, ?_, ?_⟩
  · intro h
    unfold terminate
    rw [if_pos h]
  · intro h
    unfold terminate
    rw [if_neg h]
    exact ⟨rfl, rfl⟩
  · intro hst h
    unfold terminate
    rw [if_neg h]
    exact hst

/-- Witness for C6: a failed termination of a provisioning experiment. -/
theorem claim_C6_witness :
    terminate { status := .PROVISIONING, nodes := [], manifests := none }
        RpcCode.RESPONSE_ERROR =
      { status := .PROVISIONING, nodes := [], manifests := none } :=
  ((claim_C6 { status := .PROVISIONING, nodes := [], manifests := none }
    RpcCode.RESPONSE_ERROR).2.1 (by decide)).1

/-- C7 counterexample: the registry-only-when-ready invariant fails on the
code.  From the freshly initialised state, a ready answer (with a manifest
yielding one node) followed by a provisioning answer produces a reachable
state whose status is `PROVISIONING` while the node registry is non-empty:
`_get_status` does not clear the registry when it reclassifies the
experiment away from `READY`. -/
theorem claim_C7_counterexample :
    (get_status initExperiment readyOkQuery).status = .READY ∧
    c7State.status = .PROVISIONING ∧
    c7State.nodes = [("node-0", goodNode)] := by
  refine ⟨by decide, by decide, by decide⟩

/-- C7 as amended: the registry and manifest cache are cleared exactly on
the transitions to `NULL` — the not-found classification from a non-`NULL`
state and a successful termination — while a status refresh that
reclassifies the experiment to any non-ready state (or fails) leaves the
registry untouched, so the registry may stay non-empty in non-`READY`
states. -/
theorem claim_C7 (e : PowderExperiment) (q : StatusQuery) (rv : RpcCode) :
    (isNotFound q → e.status ≠ .NULL →
      (get_status e q).status = .NULL ∧ (get_status e q).nodes = [] ∧
        (get_status e q).manifests = none) ∧
    (rv = .RESPONSE_SUCCESS →
      (terminate e rv).status = .NULL ∧ (terminate e rv).nodes = [] ∧
        (terminate e rv).manifests = none) ∧
    (q.rval = .RESPONSE_SUCCESS →
      chStarts (chTrim (outputOf q.response).data) "Status: ready".data = false →
      (get_status e q).nodes = e.nodes) ∧
    (¬ isNotFound q → q.rval ≠ .RESPONSE_SUCCESS → (get_status e q).nodes = e.nodes) := by
  refine ⟨?_, ?_, ?_, ?_⟩
  · intro hnf hnull
    unfold get_status
    rw [if_pos hnf, if_pos hnull]
    exact ⟨rfl, rfl, rfl⟩
  · intro h
    unfold terminate
    rw [if_pos h]
    exact ⟨rfl, rfl, rfl⟩
  · intro hs hnr
    have hnf : ¬ isNotFound q := by
      intro h
      rcases h with h | ⟨h, _⟩ <;> rw [hs] at h <;> exact RpcCode.noConfusion h
    simp only [get_status]
    rw [if_neg hnf,
      if_neg (by simp [hs] : ¬ q.rval ≠ RpcCode.RESPONSE_SUCCESS),
      if_neg (by simp [hnr] :
        ¬ (chStarts (chTrim (outputOf q.response).data) "Status: ready".data = true))]
  · intro hnf hns
    unfold get_status
    rw [if_neg hnf, if_pos hns]

/-- Witness for C7 (amended): the not-found clearing from the provisioning
state with a non-empty registry. -/
theorem claim_C7_witness :
    (get_status c7State notFoundQuery).nodes = [] ∧
    (get_status c7State provisioningQuery).nodes = c7State.nodes := by
  have h := claim_C7 c7State notFoundQuery RpcCode.RESPONSE_ERROR
  have h2 := claim_C7 c7State provisioningQuery RpcCode.RESPONSE_ERROR
  exact ⟨(h.1 (by decide) (by decide)).2.1, h2.2.2.1 (by decide) (by decide)⟩

/-- C10: a status query whose result code is a non-success other than the
not-found case yields `UNKNOWN` and leaves registry and manifest cache
unchanged; a success payload classified as anything other than ready (so in
particular an unrecognized payload classified `UNKNOWN`) also leaves them
unchanged; among the query-driven classifications only the not-found
(`NULL`) case clears them. -/
theorem claim_C10 (e : PowderExperiment) (q : StatusQuery) :
    (¬ isNotFound q → q.rval ≠ .RESPONSE_SUCCESS →
      (get_status e q).status = .UNKNOWN ∧ (get_status e q).nodes = e.nodes ∧
        (get_status e q).manifests = e.manifests) ∧
    (q.rval = .RESPONSE_SUCCESS →
      classifyOutput (chTrim (outputOf q.response).data) = .UNKNOWN →
      (get_status e q).nodes = e.nodes ∧ (get_status e q).manifests = e.manifests) ∧
    (q.rval = .RESPONSE_SUCCESS →
      classifyOutput (chTrim (outputOf q.response).data) ≠ .READY →
      (get_status e q).nodes = e.nodes ∧ (get_status e q).manifests = e.manifests) ∧
    (isNotFound q → e.status ≠ .NULL →
      (get_status e q).nodes = [] ∧ (get_status e q).manifests = none) := by
  have hbase : ∀ hs : q.rval = .RESPONSE_SUCCESS,
      classifyOutput (chTrim (outputOf q.response).data) ≠ .READY →
      (get_status e q).nodes = e.nodes ∧ (get_status e q).manifests = e.manifests := by
    intro hs hcl
    have hnr := not_ready_of_classify _ hcl
    have hnf : ¬ isNotFound q := by
      intro h
      rcases h with h | ⟨h, _⟩ <;> rw [hs] at h <;> exact RpcCode.noConfusion h
    simp only [get_status]
    rw [if_neg hnf,
      if_neg (by simp [hs] : ¬ q.rval ≠ RpcCode.RESPONSE_SUCCESS),
      if_neg (by simp [hnr] :
        ¬ (chStarts (chTrim (outputOf q.response).data) "Status: ready".data = true))]
    exact ⟨rfl, rfl⟩
  refine ⟨?_, ?_, ?_, ?_⟩
  · intro hnf hns
    unfold get_status
    rw [if_neg hnf, if_pos hns]
    exact ⟨rfl, rfl, rfl⟩
  · intro hs hcl
    exact hbase hs (by rw [hcl]; exact fun h => ExperimentStatus.noConfusion h)
  · exact hbase
  · intro hnf hnull
    unfold get_status
    rw [if_pos hnf, if_pos hnull]
    exact ⟨rfl, rfl⟩

/-- Witness for C10: an unclassifiable error answer on the ready state with
a non-empty registry. -/
theorem claim_C10_witness :
    (get_status c7State otherErrQuery).status = .UNKNOWN ∧
    (get_status c7State otherErrQuery).nodes = c7State.nodes :=
  ⟨((claim_C10 c7State otherErrQuery).1 (by decide) (by decide)).1,
   ((claim_C10 c7State otherErrQuery).1 (by decide) (by decide)).2.1⟩

/-- C8 counterexample: with a cached manifest list that is empty, parsing
does not reset the registry — `_parse_manifests` returns immediately on a
falsy `self._manifests`, leaving a previously non-empty registry in place,
against the claim's universal reset-then-rebuild reading. -/
theorem claim_C8_counterexample :
    c8Prior.manifests = some [] ∧
    parse_manifests c8Prior = c8Prior ∧
    c8Prior.nodes ≠ [] := by
  refine ⟨rfl, by decide, by decide⟩

/-- C8 as amended: for every non-empty list of cached manifest documents,
parsing resets the registry and rebuilds it from scratch (so re-parsing
replaces rather than merges), the rebuilt registry's keys are exactly the
identifiers of entries carrying a truthy client identifier and resolving to
a host descriptor with a truthy hostname and IPv4 address, malformed entries
are skipped, and the one-malformed-one-well-formed manifest yields a
registry of size one with only the well-formed node; an empty (or absent)
manifest cache leaves the registry untouched. -/
theorem claim_C8 (ms : List Manifest) (e : PowderExperiment) (hms : ms ≠ []) :
    (parse_manifests { e with manifests := some ms }).nodes = parseRegistry ms ∧
    (∀ c : String, hasKey (parseRegistry ms) c =
      (ms.flatMap manifestEntries).any fun en => specNodeKey en == some c) ∧
    (∀ en, (nodeFromEntry en).map Prod.fst = specNodeKey en) ∧
    parseRegistry [exampleManifest] = [("node-0", goodNode)] := by
  obtain ⟨m0, rest, rfl⟩ : ∃ m0 rest, ms = m0 :: rest := by
    cases ms with
    | nil => exact absurd rfl hms
    | cons a b => exact ⟨a, b, rfl⟩
  refine ⟨rfl, ?_, nodeFromEntry_key, by decide⟩
  intro c
  rw [parseRegistry_eq_flatMap, hasKey_foldl_addEntry]
  simp [hasKey]

/-- Witness for C8 (amended): the example manifest with one malformed and
one well-formed entry. -/
theorem claim_C8_witness :
    (parse_manifests { c8Prior with manifests := some [exampleManifest] }).nodes =
      parseRegistry [exampleManifest] ∧
    parseRegistry [exampleManifest] = [("node-0", goodNode)] := by
  have h := claim_C8 [exampleManifest] c8Prior (by decide)
  exact ⟨h.1, h.2.2.2⟩

/-- C9: when the `CERT` variable is unset, empty, or names a file that does
not exist, `SSHConnection.__init__` raises (a Configuration-class error)
rather than producing a connection object; and no construction ever creates
a process handle — `self.ssh` is `None` on every successful construction,
so no network attempt happens before `open`. -/
theorem claim_C9 (env : SSHEnv) (h : certBad env) :
    (∃ err, sshInit env = .error err) ∧
    (∀ (env' : SSHEnv) (s : SSHConnectionState),
      sshInit env' = .ok s → s.hasHandle = false) := by
  constructor
  · unfold sshInit
    cases huname : (if truthyStr env.userArg then env.userArg else env.userEnvVar) with
    | none => exact ⟨.usernameMissing, rfl⟩
    | some u =>
        cases hcert : env.cert with
        | none => exact ⟨.certUnset, rfl⟩
        | some c =>
            unfold certBad at h
            rw [hcert] at h
            rcases h with hce | hcf
            · exact ⟨.certUnset, by simp [hce]⟩
            · by_cases hc0 : c = ""
              · exact ⟨.certUnset, by simp [hc0]⟩
              · exact ⟨.certFileMissing, by simp [hc0, hcf]⟩
  · intro env' s hok
    simp only [sshInit] at hok
    repeat' split at hok
    all_goals
      first
        | exact Except.noConfusion hok
        | (injection hok with h1; rw [← h1])

/-- Witness for C9: construction with `CERT` unset. -/
theorem claim_C9_witness :
    (∃ err, sshInit c9Env = .error err) ∧
    (∀ s, sshInit c9Env = .ok s → s.hasHandle = false) :=
  ⟨(claim_C9 c9Env trivial).1, fun s => (claim_C9 c9Env trivial).2 c9Env s⟩

/-- C4 counterexample: after four consecutive transient failures `open`
raises its `ConnectionError` with a message naming the target address but
not the attempt count — the message is the fixed text `after multiple
retries`, with no `4` in it, against the claim that the error names the
attempt count. -/
theorem claim_C4_counterexample :
    c4Trace = { final := .connectionError (connErrMsg "10.0.0.1"), attempts := 4,
                sleeps := [2, 4, 8], closes := 4 } ∧
    strContains (connErrMsg "10.0.0.1") "10.0.0.1" = true ∧
    strContains (connErrMsg "10.0.0.1") "4" = false ∧
    strContains (connErrMsg "10.0.0.1") "four" = false := by
  refine ⟨by decide, by decide, by decide, by decide⟩

/-- C4 as amended: for `k` consecutive transient failures `open` makes
exactly `min k 4` transiently failing attempts, force-terminating the
process handle once per such attempt and sleeping the exponential backoff
2, 4, 8 seconds before attempts 2, 3 and 4; after the 4th transient failure
it raises a `ConnectionError` naming the target address (the attempt count
appears only in the log, not in the raised error). -/
theorem claim_C4 (hasPwd : Bool) (ip : String) (os : Nat → ExpectOutcome) (k : Nat)
    (hk : ∀ i, i < min k 4 → attemptResult hasPwd (os i) = .transient) :
    (4 ≤ k → sshOpen hasPwd ip os =
      { final := .connectionError (connErrMsg ip), attempts := 4,
        sleeps := [2, 4, 8], closes := 4 }) ∧
    (k < 4 → attemptResult hasPwd (os k) ≠ .transient →
      (sshOpen hasPwd ip os).attempts = k + 1 ∧
      (sshOpen hasPwd ip os).sleeps = [2, 4, 8].take k ∧
      (sshOpen hasPwd ip os).closes = k + attemptCloses hasPwd (os k)) := by
  constructor
  · intro h4
    have h0 := hk 0 (by omega)
    have h1 := hk 1 (by omega)
    have h2 := hk 2 (by omega)
    have h3 := hk 3 (by omega)
    have c0 := closes_of_transient hasPwd (os 0) h0
    have c1 := closes_of_transient hasPwd (os 1) h1
    have c2 := closes_of_transient hasPwd (os 2) h2
    have c3 := closes_of_transient hasPwd (os 3) h3
    simp [sshOpen, openAux, h0, h1, h2, h3, c0, c1, c2, c3]
  · intro hlt hnt
    rcases hres : attemptResult hasPwd (os k) with _ | m | m | _
    case transient => exact absurd hres hnt
    all_goals {
      interval_cases k
      · refine ⟨?_, ?_, ?_⟩ <;> simp [sshOpen, openAux, hres]
      · have h0 := hk 0 (by omega)
        have c0 := closes_of_transient hasPwd (os 0) h0
        refine ⟨?_, ?_, ?_⟩ <;> simp [sshOpen, openAux, h0, c0, hres]
      · have h0 := hk 0 (by omega)
        have h1 := hk 1 (by omega)
        have c0 := closes_of_transient hasPwd (os 0) h0
        have c1 := closes_of_transient hasPwd (os 1) h1
        refine ⟨?_, ?_, ?_⟩ <;> simp [sshOpen, openAux, h0, h1, c0, c1, hres]
      · have h0 := hk 0 (by omega)
        have h1 := hk 1 (by omega)
        have h2 := hk 2 (by omega)
        have c0 := closes_of_transient hasPwd (os 0) h0
        have c1 := closes_of_transient hasPwd (os 1) h1
        have c2 := closes_of_transient hasPwd (os 2) h2
        refine ⟨?_, ?_, ?_⟩ <;> simp [sshOpen, openAux, h0, h1, h2, c0, c1, c2, hres]
    }

/-- Witness for C4 (amended): the always-EOF stream. -/
theorem claim_C4_witness :
    sshOpen true "10.0.0.1" transientStream =
      { final := .connectionError (connErrMsg "10.0.0.1"), attempts := 4,
        sleeps := [2, 4, 8], closes := 4 } :=
  (claim_C4 true "10.0.0.1" transientStream 7
    (by
      intro i hi
      have h4 : i < 4 := by omega
      interval_cases i <;> rfl)).1 (by omega)

/-- C5: a permission-denied match or an unexpected interactive password
prompt (directly or right after host-key confirmation), observed on attempt
`i + 1` after `i` transient failures, makes `open` raise a fatal error on
that very attempt: no further attempt is made and no further backoff is
slept. -/
theorem claim_C5 (hasPwd : Bool) (ip : String) (os : Nat → ExpectOutcome) (i : Nat)
    (hi : i < 4) (htr : ∀ j, j < i → attemptResult hasPwd (os j) = .transient)
    (hf : authFatalOutcome (os i) = true) :
    (sshOpen hasPwd ip os).attempts = i + 1 ∧
    fatalFinal (sshOpen hasPwd ip os).final = true ∧
    (sshOpen hasPwd ip os).sleeps = [2, 4, 8].take i := by
  obtain ⟨m, hres⟩ := authFatal_result hasPwd (os i) hf
  have hcase : i = 0 ∨ i = 1 ∨ i = 2 ∨ i = 3 := by omega
  rcases hcase with rfl | rfl | rfl | rfl
  · rcases hres with hres | hres <;>
      refine ⟨?_, ?_, ?_⟩ <;> simp [sshOpen, openAux, hres, fatalFinal]
  · have h0 := htr 0 (by omega)
    have c0 := closes_of_transient hasPwd (os 0) h0
    rcases hres with hres | hres <;>
      refine ⟨?_, ?_, ?_⟩ <;> simp [sshOpen, openAux, h0, c0, hres, fatalFinal]
  · have h0 := htr 0 (by omega)
    have h1 := htr 1 (by omega)
    have c0 := closes_of_transient hasPwd (os 0) h0
    have c1 := closes_of_transient hasPwd (os 1) h1
    rcases hres with hres | hres <;>
      refine ⟨?_, ?_, ?_⟩ <;> simp [sshOpen, openAux, h0, h1, c0, c1, hres, fatalFinal]
  · have h0 := htr 0 (by omega)
    have h1 := htr 1 (by omega)
    have h2 := htr 2 (by omega)
    have c0 := closes_of_transient hasPwd (os 0) h0
    have c1 := closes_of_transient hasPwd (os 1) h1
    have c2 := closes_of_transient hasPwd (os 2) h2
    rcases hres with hres | hres <;>
      refine ⟨?_, ?_, ?_⟩ <;>
        simp [sshOpen, openAux, h0, h1, h2, c0, c1, c2, hres, fatalFinal]

/-- Witness for C5: one timeout, then a permission denial on the second
attempt. -/
theorem claim_C5_witness :
    (sshOpen true "10.0.0.1" c5Stream).attempts = 2 ∧
    fatalFinal (sshOpen true "10.0.0.1" c5Stream).final = true ∧
    (sshOpen true "10.0.0.1" c5Stream).sleeps = [2, 4, 8].take 1 :=
  claim_C5 true "10.0.0.1" c5Stream 1 (by omega)
    (by intro j hj; interval_cases j <;> rfl) (by decide)
